import Mathlib

/-!
Verification of the movie catalog service (app.py / models.py).

The service is embedded shallowly: the SQLite store becomes an explicit
state record, each data-access function from models.py becomes a pure
function on that state, and the FastAPI route handlers from app.py become
a request handler returning the new state and an HTTP-level response.
-/

/-- Row of the movies table; mirrors the pydantic model Movie
(id: int, title: str, genre: str). -/
structure Movie where
  id : Int
  title : String
  genre : String
  deriving DecidableEq

/-- Request/response body of POST /reviews; mirrors the pydantic model
Review (movie_id: int, rating: float, comment: str).  The rating is kept
as an exact rational: the program never computes with it, it only stores
and echoes it. -/
structure Review where
  movie_id : Int
  rating : Rat
  comment : String
  deriving DecidableEq

/-- Row of the reviews table: the INTEGER PRIMARY KEY id column is
assigned by SQLite on insert, the other columns come from the payload. -/
structure ReviewRow where
  id : Int
  movie_id : Int
  rating : Rat
  comment : String
  deriving DecidableEq

/-- The store once init_db has run: both tables exist.  Lists keep
SQLite rowid (insertion) order, which is the order SELECT * returns. -/
structure DB where
  movies : List Movie
  reviews : List ReviewRow
  deriving DecidableEq

/-- SQLite semantics of `LIMIT ? OFFSET ?`: a negative OFFSET behaves as
zero, and a negative LIMIT means no upper bound on the number of rows. -/
def sqlLimitOffset (rows : List Movie) (limit offset : Int) : List Movie :=
  let dropped := rows.drop (max offset 0).toNat
  if limit < 0 then dropped else dropped.take limit.toNat

/-- models.py get_movies: offset = (page - 1) * limit, then
SELECT * FROM movies LIMIT ? OFFSET ?. -/
def get_movies (st : DB) (page limit : Int) : List Movie :=
  sqlLimitOffset st.movies limit ((page - 1) * limit)

/-- models.py get_movie: SELECT * FROM movies WHERE id = ? and fetchone,
i.e. the first row whose id column equals the argument, if any. -/
def get_movie (st : DB) (i : Int) : Option Movie :=
  st.movies.find? (fun m => m.id == i)

/-- SQLite rowid assignment for INSERT without an explicit id: one more
than the largest rowid in use (zero when the table is empty). -/
def nextRowId (rows : List ReviewRow) : Int :=
  (rows.map ReviewRow.id).foldl max 0 + 1

/-- models.py create_review: INSERT INTO reviews (movie_id, rating,
comment) VALUES (?, ?, ?), commit, and return the payload unchanged. -/
def create_review (st : DB) (r : Review) : DB × Review :=
  ({ st with
      reviews := st.reviews ++
        [{ id := nextRowId st.reviews
           movie_id := r.movie_id
           rating := r.rating
           comment := r.comment }] },
   r)

/-- models.py get_recommendations: SELECT * FROM movies ORDER BY RANDOM()
LIMIT 5.  The random ordering is a parameter: shuffle stands for the
permutation of the table that ORDER BY RANDOM() produced. -/
def get_recommendations (shuffle : List Movie → List Movie) (st : DB) :
    List Movie :=
  (shuffle st.movies).take 5

/-- A JSON scalar as it arrives in a request body. -/
inductive JVal where
  | jint (n : Int)
  | jnum (q : Rat)
  | jstr (s : String)
  | jnull
  deriving DecidableEq

/-- The raw body of POST /reviews before validation: each field may be
absent or hold a value of the wrong type. -/
structure ReviewBody where
  movie_id : Option JVal
  rating : Option JVal
  comment : Option JVal
  deriving DecidableEq

/-- Reading a JSON value as the int field movie_id. -/
def asInt : JVal → Option Int
  | .jint n => some n
  | _ => none

/-- Reading a JSON value as the float field rating (a JSON integer is
accepted for a float field). -/
def asFloat : JVal → Option Rat
  | .jint n => some (n : Rat)
  | .jnum q => some q
  | _ => none

/-- Reading a JSON value as the str field comment. -/
def asStr : JVal → Option String
  | .jstr s => some s
  | _ => none

/-- Modelled from the spec: the request-body validation that FastAPI and
pydantic perform on the Review model before add_review runs (this layer
is framework code, not part of src/).  Every field is required and
type-checked; a missing field or a type mismatch rejects the body. -/
def validateReview (b : ReviewBody) : Option Review := do
  let m ← b.movie_id.bind asInt
  let r ← b.rating.bind asFloat
  let c ← b.comment.bind asStr
  pure { movie_id := m, rating := r, comment := c }

/-- An incoming HTTP request to one of the four routes of app.py. -/
inductive Request where
  | getMovies (page limit : Int)
  | getMovie (i : Int)
  | postReview (body : ReviewBody)
  | getRecs
  deriving DecidableEq

/-- True exactly on POST /reviews requests. -/
def Request.isPostReview : Request → Bool
  | .postReview _ => true
  | _ => false

/-- An HTTP response from one of the four routes of app.py. -/
inductive Response where
  | moviesList (ms : List Movie)
  | movieOne (m : Movie)
  | reviewEcho (r : Review)
  | err (status : Nat) (detail : String)
  deriving DecidableEq

/-- The route handlers of app.py: read_movies, read_movie (404 via
HTTPException when get_movie returns None), add_review (body validated by
the framework before the handler runs), recommendations. -/
def handle (shuffle : List Movie → List Movie) (st : DB) :
    Request → DB × Response
  | .getMovies page limit => (st, .moviesList (get_movies st page limit))
  | .getMovie i =>
      match get_movie st i with
      | some m => (st, .movieOne m)
      | none => (st, .err 404 "Movie not found")
  | .postReview b =>
      match validateReview b with
      | some rv =>
          let p := create_review st rv
          (p.1, .reviewEcho p.2)
      | none => (st, .err 422 "Unprocessable Entity")
  | .getRecs => (st, .moviesList (get_recommendations shuffle st))

/-- The store state reached by serving a sequence of requests. -/
def run (shuffle : List Movie → List Movie) (st : DB)
    (reqs : List Request) : DB :=
  reqs.foldl (fun s r => (handle shuffle s r).1) st

/-- The store file before init_db: each table either exists with its
contents or does not exist yet. -/
structure FileStore where
  movies : Option (List Movie)
  reviews : Option (List ReviewRow)
  deriving DecidableEq

/-- SQLite CREATE TABLE IF NOT EXISTS: creates an empty table when it is
absent and is a no-op when it exists. -/
def createTableIfNotExists (t : Option (List α)) : Option (List α) :=
  some (t.getD [])

/-- models.py init_db: CREATE TABLE IF NOT EXISTS for movies and for
reviews, run at import time before any request is served. -/
def init_db (fs : FileStore) : FileStore :=
  { movies := createTableIfNotExists fs.movies
    reviews := createTableIfNotExists fs.reviews }

/-- Store-connection events an operation performs, in order.  Per the
Python sqlite3 documentation, using a connection as a context manager
commits the transaction on normal exit and rolls it back on an
exception; it neither opens nor closes the connection itself. -/
inductive DbEvent where
  | acquire
  | exec (sql : String)
  | commitTxn
  | rollbackTxn
  | close
  deriving DecidableEq

/-- Connection events of models.py get_movies: sqlite3.connect, the
SELECT, then the with-block exit committing the transaction. -/
def get_movies_events : List DbEvent :=
  [.acquire, .exec "SELECT * FROM movies LIMIT ? OFFSET ?", .commitTxn]

/-- Connection events of models.py get_movie, on both the found and the
not-found outcome (the 404 is raised in app.py after the with-block). -/
def get_movie_events : List DbEvent :=
  [.acquire, .exec "SELECT * FROM movies WHERE id = ?", .commitTxn]

/-- Connection events of models.py create_review: the INSERT, the
explicit conn.commit(), then the with-block exit committing again. -/
def create_review_events : List DbEvent :=
  [.acquire,
   .exec "INSERT INTO reviews (movie_id, rating, comment) VALUES (?, ?, ?)",
   .commitTxn, .commitTxn]

/-- Connection events of models.py get_recommendations. -/
def get_recommendations_events : List DbEvent :=
  [.acquire, .exec "SELECT * FROM movies ORDER BY RANDOM() LIMIT 5",
   .commitTxn]

/-- A sample catalog used by the witnesses. -/
def sampleDB : DB :=
  { movies :=
      [{ id := 1, title := "Alien", genre := "horror" },
       { id := 2, title := "Brazil", genre := "satire" },
       { id := 3, title := "Chinatown", genre := "noir" }]
    reviews := [] }

/-- C1: for every store state and all valid page and limit values,
GET /movies returns at most limit Movie records, and the returned
sequence equals the contiguous slice of the full ordered catalog
starting at offset (page - 1) * limit. -/
theorem getMovies_paginates (st : DB) (page limit : Int)
    (h1 : 1 ≤ page) (h2 : 0 ≤ limit) :
    (get_movies st page limit).length ≤ limit.toNat ∧
    get_movies st page limit =
      (st.movies.drop ((page - 1) * limit).toNat).take limit.toNat := by
  have hoff : 0 ≤ (page - 1) * limit := mul_nonneg (by omega) h2
  have hmax : max ((page - 1) * limit) 0 = (page - 1) * limit :=
    max_eq_left hoff
  have hnl : ¬ limit < 0 := not_lt.mpr h2
  refine ⟨?_, ?_⟩
  · simp only [get_movies, sqlLimitOffset, hmax, if_neg hnl]
    exact List.length_take_le _ _
  · simp only [get_movies, sqlLimitOffset, hmax, if_neg hnl]

/-- Witness for C1 at page 2, limit 1 on the sample catalog. -/
theorem getMovies_paginates_witness :
    (1 : Int) ≤ 2 ∧ (0 : Int) ≤ 1 ∧
    ((get_movies sampleDB 2 1).length ≤ (1 : Int).toNat ∧
     get_movies sampleDB 2 1 =
       (sampleDB.movies.drop (((2 : Int) - 1) * 1).toNat).take
         (1 : Int).toNat) :=
  ⟨by decide, by decide, getMovies_paginates sampleDB 2 1 (by decide) (by decide)⟩

/-- C10: for every store state, pages below one alias page one (the
negative offset behaves as offset zero), and limit zero always yields
the empty list. -/
theorem getMovies_low_page_aliases_page_one (st : DB) (p q limit : Int)
    (h1 : p ≤ 0) (h2 : 1 ≤ limit) :
    get_movies st p limit = get_movies st 1 limit ∧
    get_movies st q 0 = [] := by
  have hoff : (p - 1) * limit ≤ 0 :=
    mul_nonpos_iff.mpr (Or.inr ⟨by omega, by omega⟩)
  have hmax : max ((p - 1) * limit) 0 = 0 := max_eq_right hoff
  refine ⟨?_, ?_⟩
  · simp [get_movies, sqlLimitOffset, hmax]
  · simp [get_movies, sqlLimitOffset]

/-- Witness for C10 at page -2, limit 2 (and page 7, limit 0) on the
sample catalog. -/
theorem getMovies_low_page_aliases_page_one_witness :
    (-2 : Int) ≤ 0 ∧ (1 : Int) ≤ 2 ∧
    (get_movies sampleDB (-2) 2 = get_movies sampleDB 1 2 ∧
     get_movies sampleDB 7 0 = []) :=
  ⟨by decide, by decide,
   getMovies_low_page_aliases_page_one sampleDB (-2) 7 2 (by decide) (by decide)⟩

/-- With distinct id columns (the PRIMARY KEY constraint), the WHERE
lookup returns exactly the member carrying the requested id. -/
theorem find_id_of_mem (l : List Movie) (i : Int)
    (hn : (l.map Movie.id).Nodup) (m : Movie) (hm : m ∈ l)
    (hi : m.id = i) :
    l.find? (fun x => x.id == i) = some m := by
  induction l with
  | nil => cases hm
  | cons a t ih =>
      rw [List.map_cons, List.nodup_cons] at hn
      rcases List.mem_cons.mp hm with rfl | hmt
      · exact List.find?_cons_of_pos t (by simpa using hi)
      · have hne : ¬ a.id = i := by
          intro hai
          exact hn.1 (hai ▸ hi ▸ List.mem_map_of_mem Movie.id hmt)
        rw [List.find?_cons_of_neg t (by simpa using hne)]
        exact ih hn.2 hmt

/-- C2: for every store state with distinct movie ids (the PRIMARY KEY
invariant) and every integer id, GET /movies/id returns exactly the
Movie record whose id equals the requested id when one exists in the
movies table, and fails with a 404 not-found error otherwise. -/
theorem getMovie_found_or_404 (shuffle : List Movie → List Movie)
    (st : DB) (i : Int) (hn : (st.movies.map Movie.id).Nodup) :
    (∀ m ∈ st.movies, m.id = i →
      handle shuffle st (.getMovie i) = (st, .movieOne m)) ∧
    ((∀ m ∈ st.movies, m.id ≠ i) →
      handle shuffle st (.getMovie i) =
        (st, .err 404 "Movie not found")) := by
  constructor
  · intro m hm hi
    simp [handle, get_movie, find_id_of_mem st.movies i hn m hm hi]
  · intro habs
    have hnone : st.movies.find? (fun x => x.id == i) = none :=
      List.find?_eq_none.mpr (fun m hm => by simpa using habs m hm)
    simp [handle, get_movie, hnone]

/-- Witness for C2: id 2 is present in the sample catalog and is
returned; id 9 is absent and yields the 404 response. -/
theorem getMovie_found_or_404_witness :
    (sampleDB.movies.map Movie.id).Nodup ∧
    handle id sampleDB (.getMovie 2) =
      (sampleDB, .movieOne { id := 2, title := "Brazil", genre := "satire" }) ∧
    handle id sampleDB (.getMovie 9) =
      (sampleDB, .err 404 "Movie not found") := by
  refine ⟨by decide, ?_, ?_⟩
  · exact (getMovie_found_or_404 id sampleDB 2 (by decide)).1
      { id := 2, title := "Brazil", genre := "satire" } (by decide) rfl
  · exact (getMovie_found_or_404 id sampleDB 9 (by decide)).2
      (by decide)

/-- A concrete well-formed review body and its validated payload, used
by the witnesses. -/
def sampleBody : ReviewBody :=
  { movie_id := some (.jint 2)
    rating := some (.jnum (mkRat 9 2))
    comment := some (.jstr "great") }

/-- The Review that sampleBody validates to. -/
def sampleReview : Review :=
  { movie_id := 2, rating := mkRat 9 2, comment := "great" }

/-- C3: for every well-formed Review payload and every store state,
POST /reviews echoes the submitted payload unchanged, with no
server-assigned fields added, and afterwards a row with exactly those
movie_id, rating and comment values exists in the reviews table. -/
theorem postReview_echoes_and_persists (shuffle : List Movie → List Movie)
    (st : DB) (b : ReviewBody) (rv : Review)
    (h : validateReview b = some rv) :
    (handle shuffle st (.postReview b)).2 = .reviewEcho rv ∧
    ∃ row ∈ (handle shuffle st (.postReview b)).1.reviews,
      row.movie_id = rv.movie_id ∧ row.rating = rv.rating ∧
      row.comment = rv.comment := by
  refine ⟨by simp [handle, h, create_review], ?_⟩
  refine ⟨{ id := nextRowId st.reviews, movie_id := rv.movie_id,
            rating := rv.rating, comment := rv.comment }, ?_, rfl, rfl, rfl⟩
  simp [handle, h, create_review]

/-- Witness for C3 on the sample catalog and sample body. -/
theorem postReview_echoes_and_persists_witness :
    validateReview sampleBody = some sampleReview ∧
    ((handle id sampleDB (.postReview sampleBody)).2 =
        .reviewEcho sampleReview ∧
     ∃ row ∈ (handle id sampleDB (.postReview sampleBody)).1.reviews,
       row.movie_id = sampleReview.movie_id ∧
       row.rating = sampleReview.rating ∧
       row.comment = sampleReview.comment) :=
  ⟨by decide,
   postReview_echoes_and_persists id sampleDB sampleBody sampleReview
     (by decide)⟩

/-- C4: a POST /reviews body with a missing required field or a type
mismatch on movie_id, rating or comment is rejected with a 422
validation error and the store is left completely unchanged. -/
theorem postReview_invalid_rejected (shuffle : List Movie → List Movie)
    (st : DB) (b : ReviewBody)
    (h : b.movie_id.bind asInt = none ∨ b.rating.bind asFloat = none ∨
         b.comment.bind asStr = none) :
    handle shuffle st (.postReview b) =
      (st, .err 422 "Unprocessable Entity") := by
  have hv : validateReview b = none := by
    rcases h with h | h | h
    · simp [validateReview, h]
    · simp [validateReview, h]
    · cases hm : b.movie_id.bind asInt <;> simp [validateReview, hm, h]
  simp [handle, hv]

/-- Witness for C4: a body whose rating field holds a string is
rejected and the sample store is unchanged. -/
theorem postReview_invalid_rejected_witness :
    (ReviewBody.mk (some (.jint 2)) (some (.jstr "bad")) none).rating.bind
        asFloat = none ∧
    handle id sampleDB
        (.postReview (ReviewBody.mk (some (.jint 2)) (some (.jstr "bad")) none)) =
      (sampleDB, .err 422 "Unprocessable Entity") :=
  ⟨by decide,
   postReview_invalid_rejected id sampleDB
     (ReviewBody.mk (some (.jint 2)) (some (.jstr "bad")) none)
     (Or.inr (Or.inl (by decide)))⟩

/-- C9: POST /reviews performs no referential check: a well-formed
payload whose movie_id matches no row of the movies table still
succeeds, is echoed back, and is persisted in the reviews table. -/
theorem postReview_dangling_movie_id_accepted
    (shuffle : List Movie → List Movie) (st : DB) (b : ReviewBody)
    (rv : Review) (hok : validateReview b = some rv)
    (hdangling : ∀ m ∈ st.movies, m.id ≠ rv.movie_id) :
    (handle shuffle st (.postReview b)).2 = .reviewEcho rv ∧
    ∃ row ∈ (handle shuffle st (.postReview b)).1.reviews,
      row.movie_id = rv.movie_id ∧ row.rating = rv.rating ∧
      row.comment = rv.comment := by
  refine ⟨by simp [handle, hok, create_review], ?_⟩
  refine ⟨{ id := nextRowId st.reviews, movie_id := rv.movie_id,
            rating := rv.rating, comment := rv.comment }, ?_, rfl, rfl, rfl⟩
  simp [handle, hok, create_review]

/-- A well-formed body whose movie_id (99) matches no sample movie. -/
def danglingBody : ReviewBody :=
  { movie_id := some (.jint 99)
    rating := some (.jint 5)
    comment := some (.jstr "ghost") }

/-- The Review that danglingBody validates to. -/
def danglingReview : Review :=
  { movie_id := 99, rating := (5 : Rat), comment := "ghost" }

/-- Witness for C9: movie_id 99 is absent from the sample catalog and
the review is still accepted and persisted. -/
theorem postReview_dangling_movie_id_accepted_witness :
    validateReview danglingBody = some danglingReview ∧
    (∀ m ∈ sampleDB.movies, m.id ≠ danglingReview.movie_id) ∧
    ((handle id sampleDB (.postReview danglingBody)).2 =
        .reviewEcho danglingReview ∧
     ∃ row ∈ (handle id sampleDB (.postReview danglingBody)).1.reviews,
       row.movie_id = danglingReview.movie_id ∧
       row.rating = danglingReview.rating ∧
       row.comment = danglingReview.comment) :=
  ⟨by decide, by decide,
   postReview_dangling_movie_id_accepted id sampleDB danglingBody
     danglingReview (by decide) (by decide)⟩

/-- C5: for every store state with distinct movie ids, and whatever
permutation of the table ORDER BY RANDOM() produces, GET
/recommendations returns between 0 and 5 records, every returned record
is a row of the movies table, and no record appears twice. -/
theorem recommendations_bounded_members_nodup
    (shuffle : List Movie → List Movie) (st : DB)
    (hperm : (shuffle st.movies).Perm st.movies)
    (hn : (st.movies.map Movie.id).Nodup) :
    (get_recommendations shuffle st).length ≤ 5 ∧
    (∀ m ∈ get_recommendations shuffle st, m ∈ st.movies) ∧
    (get_recommendations shuffle st).Nodup := by
  refine ⟨List.length_take_le _ _, ?_, ?_⟩
  · intro m hm
    exact hperm.subset (List.mem_of_mem_take hm)
  · have hmov : st.movies.Nodup := hn.of_map
    have hsh : (shuffle st.movies).Nodup := hperm.symm.nodup hmov
    exact hsh.sublist (List.take_sublist 5 _)

/-- Witness for C5 with reversal as the random ordering of the sample
catalog. -/
theorem recommendations_bounded_members_nodup_witness :
    (List.reverse sampleDB.movies).Perm sampleDB.movies ∧
    (sampleDB.movies.map Movie.id).Nodup ∧
    ((get_recommendations List.reverse sampleDB).length ≤ 5 ∧
     (∀ m ∈ get_recommendations List.reverse sampleDB,
        m ∈ sampleDB.movies) ∧
     (get_recommendations List.reverse sampleDB).Nodup) :=
  ⟨by decide, by decide,
   recommendations_bounded_members_nodup List.reverse sampleDB
     (by decide) (by decide)⟩

/-- C7: init_db is idempotent: run against a store where the movies and
reviews tables already exist it does not error and leaves every table's
contents unchanged (and a second run after a first is a no-op). -/
theorem init_db_idempotent (fs : FileStore)
    (h1 : fs.movies.isSome) (h2 : fs.reviews.isSome) :
    init_db fs = fs ∧ init_db (init_db fs) = init_db fs := by
  obtain ⟨ms, hms⟩ := Option.isSome_iff_exists.mp h1
  obtain ⟨rs, hrs⟩ := Option.isSome_iff_exists.mp h2
  have hfs : init_db fs = fs := by
    cases fs
    simp_all [init_db, createTableIfNotExists]
  exact ⟨hfs, by rw [hfs, hfs]⟩

/-- Witness for C7 on a populated store file. -/
theorem init_db_idempotent_witness :
    (FileStore.mk (some sampleDB.movies) (some [])).movies.isSome ∧
    (FileStore.mk (some sampleDB.movies) (some [])).reviews.isSome ∧
    (init_db (FileStore.mk (some sampleDB.movies) (some [])) =
       FileStore.mk (some sampleDB.movies) (some []) ∧
     init_db (init_db (FileStore.mk (some sampleDB.movies) (some []))) =
       init_db (FileStore.mk (some sampleDB.movies) (some []))) :=
  ⟨by decide, by decide,
   init_db_idempotent (FileStore.mk (some sampleDB.movies) (some []))
     (by decide) (by decide)⟩

/-- One served request never changes the movies table, and only a POST
/reviews request can change the store at all. -/
theorem handle_state_frame (shuffle : List Movie → List Movie) (st : DB)
    (r : Request) :
    (handle shuffle st r).1.movies = st.movies ∧
    (r.isPostReview = false → (handle shuffle st r).1 = st) := by
  cases r with
  | getMovies page limit => exact ⟨rfl, fun _ => rfl⟩
  | getMovie i =>
      cases h : get_movie st i <;> simp [handle, h]
  | postReview b =>
      cases h : validateReview b <;>
        simp [handle, h, create_review, Request.isPostReview]
  | getRecs => exact ⟨rfl, fun _ => rfl⟩

/-- C8: no exposed operation mutates or deletes a Movie: after any
sequence of requests to the four endpoints the movies table equals its
initial contents, and a sequence containing no POST /reviews leaves the
whole store unchanged. -/
theorem movies_table_never_mutated (shuffle : List Movie → List Movie)
    (st : DB) (reqs : List Request) :
    (run shuffle st reqs).movies = st.movies ∧
    ((∀ r ∈ reqs, r.isPostReview = false) → run shuffle st reqs = st) := by
  induction reqs generalizing st with
  | nil => exact ⟨rfl, fun _ => rfl⟩
  | cons r rest ih =>
      have hstep := handle_state_frame shuffle st r
      refine ⟨?_, ?_⟩
      · calc (run shuffle st (r :: rest)).movies
            = (handle shuffle st r).1.movies :=
              (ih (handle shuffle st r).1).1
          _ = st.movies := hstep.1
      · intro hall
        have hr : (handle shuffle st r).1 = st :=
          hstep.2 (hall r (List.mem_cons_self r rest))
        have h2 := (ih (handle shuffle st r).1).2
          (fun q hq => hall q (List.mem_cons_of_mem r hq))
        show run shuffle (handle shuffle st r).1 rest = st
        rw [h2, hr]

/-- Witness for C8: a sequence containing a write keeps the movies
table intact, and a read-only sequence keeps the whole store intact. -/
theorem movies_table_never_mutated_witness :
    (run id sampleDB
        [.getMovies 1 10, .postReview sampleBody, .getRecs]).movies =
      sampleDB.movies ∧
    (∀ r ∈ ([.getMovies 1 10, .getMovie 2, .getRecs] : List Request),
       r.isPostReview = false) ∧
    run id sampleDB [.getMovies 1 10, .getMovie 2, .getRecs] = sampleDB :=
  ⟨(movies_table_never_mutated id sampleDB
      [.getMovies 1 10, .postReview sampleBody, .getRecs]).1,
   by decide,
   (movies_table_never_mutated id sampleDB
      [.getMovies 1 10, .getMovie 2, .getRecs]).2 (by decide)⟩

/-- C6 counterexample: no operation's connection-event trace contains a
close event — the with-block of each models.py function commits the
transaction on exit but never releases (closes) the connection, so the
claim that every operation releases its connection before returning is
false. -/
theorem connections_never_released :
    DbEvent.close ∉ get_movies_events ∧
    DbEvent.close ∉ get_movie_events ∧
    DbEvent.close ∉ create_review_events ∧
    DbEvent.close ∉ get_recommendations_events := by decide

/-- C6 amended: each of the four operations opens its own connection as
its first action and finishes (commits) its transaction as its last
action before returning, but none of them closes the connection. -/
theorem ops_scoped_connection_use :
    (get_movies_events.head? = some .acquire ∧
     get_movies_events.getLast? = some .commitTxn ∧
     DbEvent.close ∉ get_movies_events) ∧
    (get_movie_events.head? = some .acquire ∧
     get_movie_events.getLast? = some .commitTxn ∧
     DbEvent.close ∉ get_movie_events) ∧
    (create_review_events.head? = some .acquire ∧
     create_review_events.getLast? = some .commitTxn ∧
     DbEvent.close ∉ create_review_events) ∧
    (get_recommendations_events.head? = some .acquire ∧
     get_recommendations_events.getLast? = some .commitTxn ∧
     DbEvent.close ∉ get_recommendations_events) := by decide
